import Mathlib

/-!
Verification of the Rust JSG core of workerd (`src/rust/jsg/lib.rs`,
`src/rust/jsg-test`): the resource/reference lifecycle (allocation,
strong-reference counting, the wrap transition, the weak finalizer
protocol) and the per-context resource registry.

Functions present in `src/rust/jsg/lib.rs` (`invoke_weak_drop`,
`get_resource_descriptor`, `NonCoercible::unwrap`, `Drop for Realm`) are
embedded directly from the source.  The `resource` module
(`Instance`, `Ref`, `State`, `Resources`) is declared in `lib.rs`
(`pub mod resource`) but its source file is not part of the sample, so
those parts are modelled from the specification, as marked on each
definition.
-/

namespace Jsg

/-! ## WrapperState and the weak-drop callback -/

/-- Modelled from the spec: the `resource::State` struct of the missing
`resource.rs` module (the spec's WrapperState).  It contains a
type-erased destructor function pointer and a raw pointer to the
Instance's user data; in the source both are read through the
`Option`-returning accessors `drop_fn()` and `this_ptr()` used by
`invoke_weak_drop`.  Pointers are modelled as natural-number addresses. -/
structure State where
  drop_fn : Option Nat
  this_ptr : Option Nat
deriving DecidableEq, Repr

/-- Result of running the weak callback: either execution stops with a
fatal failure (a Rust `expect` panic), or the stored destructor is
invoked once, on the recorded function pointer and data pointer. -/
inductive WeakDropResult where
  | fatal (msg : String)
  | invoked (fnPtr : Nat) (dataPtr : Nat)
deriving DecidableEq, Repr

/-- Embedding of `invoke_weak_drop` from `src/rust/jsg/lib.rs`
(lines 417-433): read `drop_fn()` and `this_ptr()`; `expect` (fatal
panic) if either is absent; otherwise call the drop function on the
instance pointer. -/
def invoke_weak_drop (state : State) : WeakDropResult :=
  match state.drop_fn with
  | none => .fatal "drop_fn must be set when invoke_weak_drop is called"
  | some drop_fn =>
    match state.this_ptr with
    | none => .fatal "this_ptr must be set when invoke_weak_drop is called"
    | some this_ptr => .invoked drop_fn this_ptr

/-! ## Instance lifecycle (modelled from the spec) -/

/-- Modelled from the spec: the `resource::Instance` of the missing
`resource.rs` module.  It owns the user data, an atomic strong count and
an optional WrapperState; `collected` records that the Instance was
freed, and `destructorRuns` counts how many times the user data's
destructor has run (observable in the tests through
`SIMPLE_RESOURCE_DROPS`). -/
structure Instance where
  count : Nat
  wrapper : Option State
  collected : Bool
  destructorRuns : Nat
deriving DecidableEq, Repr

/-- Modelled from the spec: `allocate(value) -> Ref` creates an Instance
with count = 1 and no WrapperState. -/
def allocate : Instance :=
  { count := 1, wrapper := none, collected := false, destructorRuns := 0 }

/-- Modelled from the spec: `clone(ref)` increments the Instance's count
by 1. -/
def clone (i : Instance) : Instance :=
  { i with count := i.count + 1 }

/-- Modelled from the spec: `drop(ref)` decrements the count; if the
resulting count is 0 and WrapperState is absent, it synchronously
destroys the user data and deallocates the Instance; if the count
reaches 0 with WrapperState present it performs no destruction. -/
def dropRef (i : Instance) : Instance :=
  let c := i.count - 1
  if c = 0 then
    match i.wrapper with
    | none =>
      { i with count := 0, collected := true, destructorRuns := i.destructorRuns + 1 }
    | some _ => { i with count := 0 }
  else { i with count := c }

/-- Iterated `dropRef`: dropping `n` outstanding Refs one after the
other. -/
def dropRefN : Nat → Instance → Instance
  | 0, i => i
  | n + 1, i => dropRefN n (dropRef i)

/-- Modelled from the spec: `wrap(ref, context)` requires the
`Unwrapped` state (re-wrapping an already-wrapped Instance is a logic
error, rejected by an assertion, modelled as `none`); it installs a
WrapperState whose destructor pointer and data pointer are both set, and
leaves the count untouched. -/
def wrap (i : Instance) (fnPtr dataPtr : Nat) : Option Instance :=
  match i.wrapper with
  | some _ => none
  | none => some { i with wrapper := some { drop_fn := some fnPtr, this_ptr := some dataPtr } }

/-- Effect on the Instance of the host collector running the weak
callback on its WrapperState: `invoke_weak_drop` is run on the stored
state; a fatal panic is `none`; otherwise the destructor has run once and
the Instance is `Collected`.  An Instance with no WrapperState was never
registered with the weak-reference primitive, so the callback never
fires for it. -/
def finalize (i : Instance) : Option Instance :=
  match i.wrapper with
  | none => some i
  | some s =>
    match invoke_weak_drop s with
    | .fatal _ => none
    | .invoked _ _ =>
      some { i with collected := true, destructorRuns := i.destructorRuns + 1 }

/-- Modelled from the spec: one host collection pass.  The host's
weak-reference contract calls the finalizer exactly for wrapped
Instances whose wrapper object is unreachable (strong count 0) and that
were not already collected; otherwise the pass leaves the Instance
alone. -/
def collect (i : Instance) : Option Instance :=
  if i.count = 0 ∧ i.wrapper.isSome ∧ i.collected = false then finalize i
  else some i

end Jsg

namespace Jsg

/-! ## Member descriptors and `get_resource_descriptor` -/

/-- Embedding of the `Member` enum of `src/rust/jsg/lib.rs`: callbacks
are type-erased function pointers, modelled as natural-number
addresses. -/
inductive Member where
  | constructor (callback : Nat)
  | method (name : String) (callback : Nat)
  | property (name : String) (getter_callback : Nat) (setter_callback : Nat)
  | staticMethod (name : String) (callback : Nat)
deriving DecidableEq, Repr

/-- Does the member use the `Property` kind, whose dispatch is
unimplemented (`todo` in the source)? -/
def Member.isProperty : Member → Bool
  | .property _ _ _ => true
  | _ => false

/-- Is the member a `Constructor` entry? -/
def Member.isCtor : Member → Bool
  | .constructor _ => true
  | _ => false

/-- Embedding of `v8::ffi::ConstructorDescriptor`. -/
structure ConstructorDescriptor where
  callback : Nat
deriving DecidableEq, Repr

/-- Embedding of `v8::ffi::MethodDescriptor`. -/
structure MethodDescriptor where
  name : String
  callback : Nat
deriving DecidableEq, Repr

/-- Embedding of `v8::ffi::StaticMethodDescriptor`. -/
structure StaticMethodDescriptor where
  name : String
  callback : Nat
deriving DecidableEq, Repr

/-- Embedding of `v8::ffi::ResourceDescriptor`. -/
structure ResourceDescriptor where
  name : String
  constructor : Option ConstructorDescriptor
  methods : List MethodDescriptor
  static_methods : List StaticMethodDescriptor
deriving DecidableEq, Repr

/-- The `for m in R::members()` loop body of `get_resource_descriptor`
(lines 50-77 of `src/rust/jsg/lib.rs`), one list element at a time: a
`Constructor` overwrites the `constructor` field, `Method` and
`StaticMethod` push onto their vectors, and `Property` hits `todo`,
which panics — modelled as `none`. -/
def buildMembers (d : ResourceDescriptor) : List Member → Option ResourceDescriptor
  | [] => some d
  | m :: rest =>
    match m with
    | .constructor cb =>
      buildMembers { d with constructor := some { callback := cb } } rest
    | .method n cb =>
      buildMembers { d with methods := d.methods ++ [{ name := n, callback := cb }] } rest
    | .property _ _ _ => none
    | .staticMethod n cb =>
      buildMembers { d with static_methods := d.static_methods ++ [{ name := n, callback := cb }] } rest

/-- Embedding of `get_resource_descriptor` from `src/rust/jsg/lib.rs`
(lines 42-80), with the type parameter `R` replaced by its class name
and member list. -/
def get_resource_descriptor (class_name : String) (members : List Member) :
    Option ResourceDescriptor :=
  buildMembers
    { name := class_name, constructor := none, methods := [], static_methods := [] }
    members

/-- The callback of the last `Constructor` entry of the list, starting
from an accumulator (mirrors successive overwrites of the
`constructor` field). -/
def lastCtor (acc : Option ConstructorDescriptor) : List Member → Option ConstructorDescriptor
  | [] => acc
  | .constructor cb :: rest => lastCtor (some { callback := cb }) rest
  | .method _ _ :: rest => lastCtor acc rest
  | .property _ _ _ :: rest => lastCtor acc rest
  | .staticMethod _ _ :: rest => lastCtor acc rest

/-- The `Method` entries of a member list, in declaration order. -/
def methodsOf : List Member → List MethodDescriptor :=
  List.filterMap fun m =>
    match m with
    | .method n cb => some { name := n, callback := cb }
    | _ => none

/-- The `StaticMethod` entries of a member list, in declaration
order. -/
def staticsOf : List Member → List StaticMethodDescriptor :=
  List.filterMap fun m =>
    match m with
    | .staticMethod n cb => some { name := n, callback := cb }
    | _ => none

/-! ## Per-context resource registry (modelled from the spec) -/

/-- Modelled from the spec: the `Resources` registry of the missing
`resource.rs` module, owned by one Realm (execution context).  It maps a
resource type (identified by a type id) to its cached callable-template
entry; `builds` counts how many templates have been built in this
context, each build yielding a fresh entry id. -/
structure Resources where
  entries : List (Nat × Nat)
  builds : Nat
deriving DecidableEq, Repr

/-- Modelled from the spec: the empty registry a fresh Realm starts
with (`Resources::default()`). -/
def Resources.empty : Resources :=
  { entries := [], builds := 0 }

/-- Modelled from the spec: `get_or_create(type)` looks up a cached
entry for the resource type in this context; if absent it builds one
from the type's Member Descriptor Set, caches it and returns it;
otherwise it returns the cached entry unchanged.  Returns the updated
registry and the entry. -/
def get_or_create (r : Resources) (typeId : Nat) : Resources × Nat :=
  match r.entries.lookup typeId with
  | some e => (r, e)
  | none =>
    let e := r.builds
    ({ entries := (typeId, e) :: r.entries, builds := r.builds + 1 }, e)

/-! ## V8 values, the `Type` contract and `NonCoercible` -/

/-- Model of a V8 JavaScript value as far as the primitive `Type`
contract observes it: strings, booleans, numbers and the remaining
value kinds that the strict checks reject. -/
inductive JsValue where
  | str (s : String)
  | boolean (b : Bool)
  | number (n : Int)
  | nullVal
  | undefinedVal
  | objectVal
deriving DecidableEq, Repr

/-- Model of `Local<Value>::type_of()` (V8's `typeof`), used to build
the error message of `NonCoercible::unwrap`. -/
def JsValue.type_of : JsValue → String
  | .str _ => "string"
  | .boolean _ => "boolean"
  | .number _ => "number"
  | .nullVal => "object"
  | .undefinedVal => "undefined"
  | .objectVal => "object"

/-- Model of `Local<Value>::is_string()`. -/
def JsValue.is_string : JsValue → Bool
  | .str _ => true
  | _ => false

/-- Embedding of the `Type` trait contract of `src/rust/jsg/lib.rs` for
a primitive type `α`: a class name, the strict `is_exact` check and the
coercion-free `unwrap`.  (`wrap` converts in the other direction and is
not observed by `NonCoercible::unwrap`.) -/
structure TypeImpl (α : Type) where
  class_name : String
  is_exact : JsValue → Bool
  unwrapVal : JsValue → α

/-- Model of the `Lock` as far as `NonCoercible::unwrap` observes it:
the list of error messages thrown on the isolate, in order. -/
structure LockState where
  thrown : List String
deriving DecidableEq, Repr

/-- Model of `v8::ffi::isolate_throw_error`: records the pending
exception on the isolate. -/
def isolate_throw_error (lock : LockState) (msg : String) : LockState :=
  { lock with thrown := lock.thrown ++ [msg] }

/-- Embedding of the `NonCoercible<T>` wrapper struct. -/
structure NonCoercible (α : Type) where
  value : α
deriving DecidableEq, Repr

/-- Embedding of `NonCoercible::new`. -/
def NonCoercible.new {α : Type} (value : α) : NonCoercible α :=
  { value := value }

/-- Embedding of `NonCoercible::unwrap` from `src/rust/jsg/lib.rs`
(lines 189-198): if the value is not exactly of type `T`, throw a
JavaScript error and return `none`; otherwise return the strict
`T::unwrap` of the value, wrapped.  The returned pair is the lock after
the call and the Rust return value. -/
def NonCoercible.unwrap {α : Type} (T : TypeImpl α) (lock : LockState)
    (value : JsValue) : LockState × Option (NonCoercible α) :=
  if ¬ T.is_exact value then
    let error_msg :=
      "Expected a " ++ T.class_name ++ " value but got " ++ value.type_of
    (isolate_throw_error lock error_msg, none)
  else
    (lock, some (NonCoercible.new (T.unwrapVal value)))

/-- The `impl Type for String` of `src/rust/jsg/lib.rs`, restricted to
what this model observes: `class_name` is "string", `is_exact` is
`value.is_string()`, and `unwrap` extracts the string contents (the
FFI `unwrap_string` of a value known to be a string). -/
def stringType : TypeImpl String :=
  { class_name := "string"
    is_exact := JsValue.is_string
    unwrapVal := fun v =>
      match v with
      | .str s => s
      | _ => "" }

/-! ## Realm destruction -/

/-- Outcome of dropping a Realm: normal completion, or a tripped
assertion. -/
inductive RealmDropOutcome where
  | ok
  | assertionFailure (msg : String)
deriving DecidableEq, Repr

/-- Embedding of `impl Drop for Realm` from `src/rust/jsg/lib.rs`
(lines 398-405): `debug_assert` that the isolate lock is held.  The
first argument models whether the build has debug assertions enabled
(`debug_assert` is compiled out otherwise); the second is
`self.isolate.is_locked()`. -/
def realmDrop (debugAssertions : Bool) (isLocked : Bool) : RealmDropOutcome :=
  if debugAssertions ∧ ¬ isLocked then
    .assertionFailure "Realm must be dropped while holding the isolate lock"
  else .ok

end Jsg

namespace Jsg

/-! ## Helper lemmas -/

/-- Dropping a Ref of a wrapped Instance only decrements the count: no
destruction, no change to the wrapper. -/
theorem dropRef_wrapped_eq (i : Instance) (s : State) (h : i.wrapper = some s) :
    dropRef i = { i with count := i.count - 1 } := by
  unfold dropRef
  by_cases hc : i.count - 1 = 0
  · simp [hc, h]
  · simp [hc]

/-- Dropping `n` Refs of a wrapped Instance subtracts `n` from the
count and changes nothing else. -/
theorem dropRefN_wrapped_eq (n : Nat) (i : Instance) (s : State)
    (h : i.wrapper = some s) :
    dropRefN n i = { i with count := i.count - n } := by
  induction n generalizing i with
  | zero => simp [dropRefN]
  | succ m ih =>
    rw [dropRefN, dropRef_wrapped_eq i s h, ih { i with count := i.count - 1 } h]
    simp [Nat.sub_sub, Nat.add_comm]

/-- Processing a member list that contains a `Property` entry hits the
unimplemented arm and panics, whatever the accumulated descriptor. -/
theorem buildMembers_none_of_property (ms : List Member) (d : ResourceDescriptor)
    (h : ∃ m ∈ ms, m.isProperty = true) :
    buildMembers d ms = none := by
  induction ms generalizing d with
  | nil => simp at h
  | cons m rest ih =>
    obtain ⟨x, hx, hprop⟩ := h
    cases hx with
    | head =>
      cases m with
      | property n g s => simp [buildMembers]
      | constructor cb => simp [Member.isProperty] at hprop
      | method n cb => simp [Member.isProperty] at hprop
      | staticMethod n cb => simp [Member.isProperty] at hprop
    | tail _ hmem =>
      cases m with
      | property n g s => simp [buildMembers]
      | constructor cb => exact ih _ ⟨x, hmem, hprop⟩
      | method n cb => exact ih _ ⟨x, hmem, hprop⟩
      | staticMethod n cb => exact ih _ ⟨x, hmem, hprop⟩

/-- Processing a member list with no `Property` entry succeeds; the
`constructor` field ends as the last `Constructor` seen, and methods
and static methods are appended in declaration order. -/
theorem buildMembers_eq_of_no_property (ms : List Member) (d : ResourceDescriptor)
    (h : ∀ m ∈ ms, m.isProperty = false) :
    buildMembers d ms =
      some { name := d.name, constructor := lastCtor d.constructor ms,
             methods := d.methods ++ methodsOf ms,
             static_methods := d.static_methods ++ staticsOf ms } := by
  induction ms generalizing d with
  | nil => simp [buildMembers, lastCtor, methodsOf, staticsOf]
  | cons m rest ih =>
    have hrest : ∀ x ∈ rest, x.isProperty = false := fun x hx => h x (List.mem_cons_of_mem m hx)
    cases m with
    | constructor cb =>
      rw [buildMembers, ih _ hrest]
      simp [lastCtor, methodsOf, staticsOf]
    | method n cb =>
      rw [buildMembers, ih _ hrest]
      simp [lastCtor, methodsOf, staticsOf]
    | property n g s =>
      have := h _ (List.mem_cons_self _ _)
      simp [Member.isProperty] at this
    | staticMethod n cb =>
      rw [buildMembers, ih _ hrest]
      simp [lastCtor, methodsOf, staticsOf]

/-- Once a constructor has been recorded, processing more members keeps
some constructor recorded. -/
theorem lastCtor_some_acc (ms : List Member) (c : ConstructorDescriptor) :
    ∃ cb, lastCtor (some c) ms = some cb := by
  induction ms generalizing c with
  | nil => exact ⟨c, rfl⟩
  | cons m rest ih =>
    cases m with
    | constructor cb => exact ih _
    | method n cb => exact ih _
    | property n g s => exact ih _
    | staticMethod n cb => exact ih _

/-- A member list containing a `Constructor` entry yields some recorded
constructor. -/
theorem lastCtor_some_of_mem (ms : List Member)
    (h : ∃ m ∈ ms, m.isCtor = true) :
    ∃ cb, lastCtor none ms = some cb := by
  induction ms with
  | nil => simp at h
  | cons m rest ih =>
    obtain ⟨x, hx, hctor⟩ := h
    cases hx with
    | head =>
      cases m with
      | constructor cb => exact lastCtor_some_acc rest _
      | method n cb => simp [Member.isCtor] at hctor
      | property n g s => simp [Member.isCtor] at hctor
      | staticMethod n cb => simp [Member.isCtor] at hctor
    | tail _ hmem =>
      cases m with
      | constructor cb => exact lastCtor_some_acc rest _
      | method n cb => exact ih ⟨x, hmem, hctor⟩
      | property n g s => exact ih ⟨x, hmem, hctor⟩
      | staticMethod n cb => exact ih ⟨x, hmem, hctor⟩

/-! ## Claim theorems -/

/-- C1: for every call to `finalize` (`invoke_weak_drop`) on a
WrapperState record: if the stored destructor function pointer or the
stored data pointer is absent, execution stops with a fatal failure;
otherwise the stored destructor is invoked exactly once, on exactly the
stored data pointer, and the Instance transitions to the `Collected`
state. -/
theorem invoke_weak_drop_contract (s : State) :
    ((s.drop_fn = none ∨ s.this_ptr = none) → ∃ m, invoke_weak_drop s = .fatal m)
    ∧ ∀ f p, s.drop_fn = some f → s.this_ptr = some p →
        invoke_weak_drop s = .invoked f p
        ∧ ∀ i : Instance, i.wrapper = some s →
            finalize i
              = some { i with collected := true,
                              destructorRuns := i.destructorRuns + 1 } := by
  constructor
  · intro h
    cases hd : s.drop_fn with
    | none => exact ⟨_, by rw [invoke_weak_drop, hd]⟩
    | some f =>
      cases ht : s.this_ptr with
      | none => exact ⟨_, by rw [invoke_weak_drop, hd, ht]⟩
      | some p =>
        rcases h with h | h
        · rw [hd] at h; cases h
        · rw [ht] at h; cases h
  · intro f p hd ht
    have hinv : invoke_weak_drop s = .invoked f p := by
      rw [invoke_weak_drop, hd, ht]
    refine ⟨hinv, fun i hi => ?_⟩
    rw [finalize, hi]
    simp [hinv]

/-- Concrete run of the C1 contract: a WrapperState with both pointers
set invokes the destructor on the stored pointer, and the finalized
Instance is `Collected`. -/
theorem invoke_weak_drop_contract_witness :
    invoke_weak_drop { drop_fn := some 7, this_ptr := some 42 } = .invoked 7 42
    ∧ finalize { count := 0, wrapper := some { drop_fn := some 7, this_ptr := some 42 },
                 collected := false, destructorRuns := 0 }
        = some { count := 0, wrapper := some { drop_fn := some 7, this_ptr := some 42 },
                 collected := true, destructorRuns := 1 } := by
  have h := (invoke_weak_drop_contract { drop_fn := some 7, this_ptr := some 42 }).2 7 42 rfl rfl
  exact ⟨h.1, h.2 _ rfl⟩

/-- C2: for an Instance that was never wrapped, dropping the last
outstanding Ref destroys the user data exactly once, synchronously,
before the drop returns; dropping a non-last Ref runs no destructor. -/
theorem drop_last_ref_unwrapped (i : Instance) (h : i.wrapper = none) :
    (i.count = 1 →
      dropRef i = { i with count := 0, collected := true,
                           destructorRuns := i.destructorRuns + 1 })
    ∧ (2 ≤ i.count →
      (dropRef i).destructorRuns = i.destructorRuns
      ∧ (dropRef i).collected = i.collected
      ∧ (dropRef i).count = i.count - 1) := by
  constructor
  · intro h1
    rw [dropRef]
    simp [h1, h]
  · intro h2
    have hne : ¬ i.count - 1 = 0 := by omega
    rw [dropRef]
    simp [hne]

/-- Concrete run of C2, mirroring the `supports_gc_via_realm_drop`
test: allocate then drop; the destructor has run exactly once. -/
theorem drop_last_ref_unwrapped_witness :
    dropRef allocate
      = { count := 0, wrapper := none, collected := true, destructorRuns := 1 } :=
  (drop_last_ref_unwrapped allocate rfl).1 rfl

/-- C3: for an Instance wrapped while at least one Ref remained,
dropping every outstanding Ref runs no destructor: the Instance stays
alive (not collected), with its WrapperState intact, until the host
collector's finalizer runs. -/
theorem drop_all_refs_wrapped (i : Instance) (s : State)
    (h : i.wrapper = some s) (_hn : 1 ≤ i.count) (hc : i.collected = false) :
    (dropRefN i.count i).destructorRuns = i.destructorRuns
    ∧ (dropRefN i.count i).collected = false
    ∧ (dropRefN i.count i).wrapper = some s
    ∧ (dropRefN i.count i).count = 0 := by
  rw [dropRefN_wrapped_eq i.count i s h]
  exact ⟨rfl, hc, h, by simp⟩

/-- Concrete run of C3, mirroring the first half of
`supports_gc_via_weak_callback`: a wrapped Instance with two Refs; both
drops leave the destructor unrun. -/
theorem drop_all_refs_wrapped_witness :
    (dropRefN 2 { count := 2, wrapper := some { drop_fn := some 5, this_ptr := some 9 },
                  collected := false, destructorRuns := 0 }).destructorRuns = 0
    ∧ (dropRefN 2 { count := 2, wrapper := some { drop_fn := some 5, this_ptr := some 9 },
                    collected := false, destructorRuns := 0 }).collected = false := by
  have h := drop_all_refs_wrapped
    { count := 2, wrapper := some { drop_fn := some 5, this_ptr := some 9 },
      collected := false, destructorRuns := 0 }
    { drop_fn := some 5, this_ptr := some 9 } rfl (by decide) rfl
  exact ⟨h.1, h.2.1⟩

/-- C4: for a wrapped Instance whose Refs have all been dropped, one
collection pass destroys the user data exactly once (the destructor run
count rises by exactly one) and a second pass changes nothing, so the
destructor runs at most once over the Instance's life. -/
theorem collect_runs_destructor_once (i : Instance) (f p : Nat)
    (h : i.wrapper = some { drop_fn := some f, this_ptr := some p })
    (hc : i.count = 0) (hcol : i.collected = false) :
    collect i = some { i with collected := true,
                              destructorRuns := i.destructorRuns + 1 }
    ∧ collect { i with collected := true, destructorRuns := i.destructorRuns + 1 }
        = some { i with collected := true,
                        destructorRuns := i.destructorRuns + 1 } := by
  constructor
  · simp [collect, hc, h, hcol, finalize, invoke_weak_drop]
  · rw [collect]
    simp

/-- Concrete run of C4, mirroring the second half of
`supports_gc_via_weak_callback`: a first GC pass frees the Instance, a
second pass does not touch it again. -/
theorem collect_runs_destructor_once_witness :
    collect { count := 0, wrapper := some { drop_fn := some 5, this_ptr := some 9 },
              collected := false, destructorRuns := 0 }
      = some { count := 0, wrapper := some { drop_fn := some 5, this_ptr := some 9 },
               collected := true, destructorRuns := 1 }
    ∧ collect { count := 0, wrapper := some { drop_fn := some 5, this_ptr := some 9 },
                collected := true, destructorRuns := 1 }
      = some { count := 0, wrapper := some { drop_fn := some 5, this_ptr := some 9 },
               collected := true, destructorRuns := 1 } :=
  collect_runs_destructor_once
    { count := 0, wrapper := some { drop_fn := some 5, this_ptr := some 9 },
      collected := false, destructorRuns := 0 } 5 9 rfl rfl rfl

/-- C5: `wrap` succeeds only from the `Unwrapped` state and leaves the
strong count unchanged; a second wrap attempt — directly, or through a
clone of a Ref — is rejected, so at most one WrapperState is ever
attached per Instance. -/
theorem wrap_exactly_once (i : Instance) (f p f2 p2 : Nat) :
    (i.wrapper = none →
      ∃ j, wrap i f p = some j
        ∧ j.count = i.count
        ∧ j.wrapper = some { drop_fn := some f, this_ptr := some p }
        ∧ wrap j f2 p2 = none
        ∧ wrap (clone j) f2 p2 = none)
    ∧ ∀ s, i.wrapper = some s → wrap i f p = none := by
  constructor
  · intro h
    refine ⟨{ i with wrapper := some { drop_fn := some f, this_ptr := some p } },
        ?_, rfl, rfl, ?_, ?_⟩
    · rw [wrap, h]
    · rw [wrap]
    · rw [clone, wrap]
  · intro s hs
    rw [wrap, hs]

/-- Concrete run of C5: wrapping a fresh allocation succeeds with the
count intact; re-wrapping it, directly or via a clone, is rejected. -/
theorem wrap_exactly_once_witness :
    ∃ j, wrap allocate 1 2 = some j
      ∧ j.count = allocate.count
      ∧ j.wrapper = some { drop_fn := some 1, this_ptr := some 2 }
      ∧ wrap j 3 4 = none
      ∧ wrap (clone j) 3 4 = none :=
  (wrap_exactly_once allocate 1 2 3 4).1 rfl

/-- C6: the first `get_or_create` for a type in a context builds the
callable template and caches it; a repeated call for the same
(type, context) pair returns the very same registry and entry, building
nothing; a call that finds a cached entry changes nothing. -/
theorem get_or_create_memoizes (r : Resources) (t : Nat) :
    get_or_create (get_or_create r t).1 t = get_or_create r t
    ∧ (r.entries.lookup t = none →
        (get_or_create r t).1.builds = r.builds + 1
        ∧ (get_or_create r t).1.entries.lookup t = some (get_or_create r t).2)
    ∧ ∀ e, r.entries.lookup t = some e → get_or_create r t = (r, e) := by
  refine ⟨?_, ?_, ?_⟩
  · cases hl : r.entries.lookup t with
    | some e =>
      have h1 : get_or_create r t = (r, e) := by rw [get_or_create, hl]
      rw [h1]
      exact h1
    | none =>
      have h1 : get_or_create r t
          = ({ entries := (t, r.builds) :: r.entries, builds := r.builds + 1 }, r.builds) := by
        rw [get_or_create, hl]
      rw [h1, get_or_create]
      simp [List.lookup]
  · intro hl
    rw [get_or_create, hl]
    exact ⟨rfl, by simp [List.lookup]⟩
  · intro e hl
    rw [get_or_create, hl]

/-- Concrete run of C6: in a fresh registry, the first call for type 0
builds one template and caches it, and the second call returns the same
registry and entry. -/
theorem get_or_create_memoizes_witness :
    get_or_create (get_or_create Resources.empty 0).1 0 = get_or_create Resources.empty 0
    ∧ (get_or_create Resources.empty 0).1.builds = 1
    ∧ (get_or_create Resources.empty 0).1.entries.lookup 0
        = some (get_or_create Resources.empty 0).2 := by
  have h := get_or_create_memoizes Resources.empty 0
  exact ⟨h.1, (h.2.1 rfl).1, (h.2.1 rfl).2⟩

/-- C7: building the resource descriptor of a member list containing an
unsupported member kind (a `Property` entry, whose dispatch is
unimplemented) fails fast with a panic rather than skipping the member
or producing a degraded descriptor. -/
theorem property_member_panics (cn : String) (ms : List Member)
    (h : ∃ m ∈ ms, m.isProperty = true) :
    get_resource_descriptor cn ms = none :=
  buildMembers_none_of_property ms _ h

/-- Concrete run of C7: a member list with one property accessor pair
makes descriptor construction panic. -/
theorem property_member_panics_witness :
    get_resource_descriptor "R" [Member.property "x" 1 2] = none :=
  property_member_panics "R" [Member.property "x" 1 2]
    ⟨Member.property "x" 1 2, List.mem_singleton.mpr rfl, rfl⟩

/-- C8: for every primitive type contract `T` and host value `v`,
`NonCoercible::unwrap` returns `Some` of the strict `T::unwrap` of `v`
exactly when `T::is_exact(v)` holds; otherwise it throws a host error
describing the mismatch and returns `None`, so no coercion of `v` into
`T` ever occurs. -/
theorem noncoercible_unwrap_strict {α : Type} (T : TypeImpl α)
    (lock : LockState) (v : JsValue) :
    ((NonCoercible.unwrap T lock v).2 = some (NonCoercible.new (T.unwrapVal v))
        ↔ T.is_exact v = true)
    ∧ (T.is_exact v = true → (NonCoercible.unwrap T lock v).1 = lock)
    ∧ (T.is_exact v = false →
        (NonCoercible.unwrap T lock v).2 = none
        ∧ (NonCoercible.unwrap T lock v).1.thrown
            = lock.thrown
              ++ ["Expected a " ++ T.class_name ++ " value but got " ++ v.type_of]) := by
  by_cases h : T.is_exact v = true
  · refine ⟨⟨fun _ => h, fun _ => ?_⟩, fun _ => ?_, fun hf => ?_⟩
    · simp [NonCoercible.unwrap, h]
    · simp [NonCoercible.unwrap, h]
    · rw [hf] at h
      exact absurd h Bool.false_ne_true
  · have hf : T.is_exact v = false := by
      cases hb : T.is_exact v with
      | true => exact absurd hb h
      | false => rfl
    refine ⟨⟨fun hs => ?_, fun ht => absurd ht h⟩, fun ht => absurd ht h, fun _ => ?_⟩
    · simp [NonCoercible.unwrap, hf] at hs
    · constructor
      · simp [NonCoercible.unwrap, hf]
      · simp [NonCoercible.unwrap, hf, isolate_throw_error]

/-- Concrete run of C8 on the `String` contract: a JavaScript `null` is
not a string, so the strict unwrap throws and yields `None` instead of
coercing null to a string. -/
theorem noncoercible_unwrap_strict_witness :
    (NonCoercible.unwrap stringType { thrown := [] } JsValue.nullVal).2 = none
    ∧ (NonCoercible.unwrap stringType { thrown := [] } JsValue.nullVal).1.thrown
        = ["Expected a string value but got object"] := by
  have h := (noncoercible_unwrap_strict stringType { thrown := [] } JsValue.nullVal).2.2 rfl
  exact ⟨h.1, by rw [h.2]; rfl⟩

/-- C9: destroying a Realm while the caller does not hold the isolate's
execution lock trips the assertion (in a build with debug assertions);
under the documented precondition that the lock is held, the failure
branch is unreachable. -/
theorem realm_drop_lock_assertion :
    realmDrop true false
      = .assertionFailure "Realm must be dropped while holding the isolate lock"
    ∧ ∀ d, realmDrop d true = .ok := by
  refine ⟨rfl, fun d => ?_⟩
  rw [realmDrop]
  simp

/-- C10 as stated is false: this member list holds two `Constructor`
entries, yet descriptor construction panics on the `Property` entry
between them instead of raising no error. -/
theorem multi_ctor_counterexample :
    ([Member.constructor 1, Member.property "p" 2 3,
        Member.constructor 4].filter Member.isCtor).length = 2
    ∧ get_resource_descriptor "X"
        [Member.constructor 1, Member.property "p" 2 3, Member.constructor 4]
      = none :=
  ⟨rfl, rfl⟩

/-- C10 (amended): for every member list containing more than one
`Constructor` entry and no `Property` entry, descriptor construction
raises no error; the descriptor's constructor field holds the callback
of the last `Constructor` entry in members() order (later constructors
silently overwrite earlier ones), while `Method` and `StaticMethod`
entries are appended preserving declaration order and names. -/
theorem multi_ctor_last_wins (cn : String) (ms : List Member)
    (hp : ∀ m ∈ ms, m.isProperty = false)
    (hc : 2 ≤ (ms.filter Member.isCtor).length) :
    get_resource_descriptor cn ms
      = some { name := cn, constructor := lastCtor none ms,
               methods := methodsOf ms, static_methods := staticsOf ms }
    ∧ ∃ cb, lastCtor none ms = some cb := by
  constructor
  · rw [get_resource_descriptor, buildMembers_eq_of_no_property ms _ hp]
    rfl
  · have hne : ms.filter Member.isCtor ≠ [] := by
      intro hnil
      rw [hnil] at hc
      simp at hc
    obtain ⟨m, hm⟩ := List.exists_mem_of_ne_nil _ hne
    rw [List.mem_filter] at hm
    exact lastCtor_some_of_mem ms ⟨m, hm.1, hm.2⟩

/-- Concrete run of the amended C10: two constructors, one method and
one static method; the second constructor wins and the other members
keep their order and names. -/
theorem multi_ctor_last_wins_witness :
    get_resource_descriptor "X"
        [Member.constructor 1, Member.method "m" 2,
         Member.constructor 4, Member.staticMethod "s" 5]
      = some { name := "X", constructor := some { callback := 4 },
               methods := [{ name := "m", callback := 2 }],
               static_methods := [{ name := "s", callback := 5 }] } := by
  have h := (multi_ctor_last_wins "X"
    [Member.constructor 1, Member.method "m" 2,
     Member.constructor 4, Member.staticMethod "s" 5]
    (by decide) (by decide)).1
  rw [h]
  rfl

end Jsg
